import Mathlib

/-!
Shallow embedding of `mebispy/__init__.py` (the `mebispy` package): a thin
client that performs a SAML login handshake and wraps authenticated HTTP
requests against the mebis learning platform.

The HTTP transport itself (the `requests` library) is external to the
repository; every operation below therefore takes the transport's outcome
(the `Response` the server answered with, or the exception the transport
raised) as an explicit argument and embeds only the repository's own logic:
pattern extraction, error construction and result interpretation.

Conventions:
* exceptions are modelled by the `PyExc` inductive and fallible code returns
  `Except PyExc _`;
* the module-level `debug` flag, today's date (`date.today()`) and the
  `html.unescape` / `json` parsing functions of the Python standard library
  are passed in as explicit parameters;
* methods of the `UserSession` class thread the object state explicitly and
  return it (unchanged exactly when the source never assigns to `self`).
-/

set_option linter.unusedVariables false

namespace Mebispy

/-- HTTP response as seen by the client: `requests.Response` restricted to the
fields the source reads (`status_code`, `text`, `headers`, `url`). Header
lookup in `requests` is case-insensitive, see `Response.getHeader`. -/
structure Response where
  status_code : Nat
  text : String
  headers : List (String × String)
  url : String
deriving DecidableEq

/-- Lower-casing of ASCII strings, modelling the `key.lower()` normalisation
that the `requests` `CaseInsensitiveDict` applies to header names. -/
def lowerString (s : String) : String :=
  String.mk (s.data.map Char.toLower)

/-- Case-insensitive header lookup: `r.headers[name]` on a `requests`
response (`none` models a `KeyError`). -/
def Response.getHeader (r : Response) (name : String) : Option String :=
  (r.headers.find? (fun p => lowerString p.1 == lowerString name)).map (fun p => p.2)

/-- Case-insensitive header membership: `name in r.headers` on a `requests`
response. -/
def Response.hasHeader (r : Response) (name : String) : Bool :=
  (r.getHeader name).isSome

/-- The double-quote character, written via its code point so that string and
character literals stay unambiguous. -/
def quoteChar : Char := Char.ofNat 34

/-- Take the characters before the first occurrence of `stop`; `none` when
`stop` does not occur (the lookahead `(?=\")` of the source regexes then has
no match). -/
def splitAtChar (stop : Char) : List Char → Option (List Char)
  | [] => none
  | c :: cs => if c = stop then some [] else (splitAtChar stop cs).map (fun l => c :: l)

/-- Drop everything up to and including the first occurrence of `marker`;
`none` when `marker` does not occur (the lookbehind of the source regexes
then has no match). -/
def dropUntilAfter (marker : List Char) : List Char → Option (List Char)
  | [] => if marker.isPrefixOf ([] : List Char) then some [] else none
  | c :: cs =>
    if marker.isPrefixOf (c :: cs) then some ((c :: cs).drop marker.length)
    else dropUntilAfter marker cs

/-- Substring test, modelling Python's `needle in hay` on strings: true
exactly when `needle` occurs contiguously in `hay`. -/
def containsSub (needle hay : List Char) : Bool :=
  (dropUntilAfter needle hay).isSome

/-- First match of the source regexes, all of which have the shape
`(?<=MARKER).*?(?=\")`: the text between the first occurrence of `MARKER`
and the next double quote. `none` models `re.search` returning `None`. -/
def extractPattern (marker : String) (s : String) : Option String :=
  ((dropUntilAfter marker.data s.data).bind (splitAtChar quoteChar)).map String.mk

/-- Lookbehind of the first `action` regex in `_login`:
`(?<=action=\")`. -/
def actionMarker : String := "action=\""

/-- Lookbehind of the `RelayState` regex in `_login`:
`(?<=name=\"RelayState\" value=\")`. -/
def relayStateMarker : String := "name=\"RelayState\" value=\""

/-- Lookbehind of the `SAMLResponse` regex in `_login`:
`(?<=name=\"SAMLResponse\" value=\")`. -/
def samlResponseMarker : String := "name=\"SAMLResponse\" value=\""

/-- Lookbehind of the session-key regex in `_login`:
`(?<=sesskey\"\:\")`. -/
def sesskeyMarker : String := "sesskey\":\""

/-- Lookbehind of the user-id regex in `_login`: `(?<=data-userid\=\")`. -/
def useridMarker : String := "data-userid=\""

/-- Exceptions the embedded code can raise. `httpError`, `loginError` and
`actionFailedError` are the classes defined by the module (each stores only
the message passed to `Exception.__init__`); the remaining constructors model
the Python built-in exceptions that the source can run into. -/
inductive PyExc where
  /-- `mebispy.HTTPError` with the message built by its `__init__`. -/
  | httpError (message : String)
  /-- `mebispy.LoginError` with the message built by its `__init__`. -/
  | loginError (message : String)
  /-- `mebispy.ActionFailedError` with the message passed to it. -/
  | actionFailedError (message : String)
  /-- Built-in `KeyError` for the given missing key. -/
  | keyError (key : String)
  /-- Built-in `AttributeError` from calling `.group(0)` on the `None` that
  `re.search` returns when a pattern has no match. -/
  | attributeErrorNoneGroup
  /-- Built-in `AttributeError` from reading `self._user`, an attribute the
  class never assigns (see `UserSession.assignedAttrs`). -/
  | attributeErrorMissingUserAttr
  /-- `requests.exceptions.JSONDecodeError` from `Response.json()` on a body
  that is not valid JSON. -/
  | jsonDecodeError
  /-- Built-in `IndexError` from `[0]` on an empty parsed array. -/
  | indexErrorOutOfRange
  /-- Coarse stand-in for the built-in error raised when subscripting a
  parsed JSON value that is neither a list (for `[0]`) nor an object (for
  `['error']`); no claim exercises these degenerate shapes. -/
  | typeErrorNotSubscriptable
deriving DecidableEq

/-- True exactly for the module's own `HTTPError` exception class. -/
def PyExc.isHTTPError : PyExc → Bool
  | .httpError _ => true
  | _ => false

/-- Message built by `LoginError.__init__(username)`:
`Error during login for user "<username>". Most likely the password is
incorrect.` -/
def LoginError.message (username : String) : String :=
  "Error during login for user \"" ++ username
    ++ "\". Most likely the password is incorrect."

/-- Anniversary count `a` computed by `HTTPError.__init__` from
`date.today()`: set only when today, formatted `%d-%m`, is `01-04`, and then
equal to `str(year - 1998)`. The current date is passed in as the formatted
day-month string and the year. -/
def HTTPError.anniversary (dayMonth : String) (year : Int) : Option String :=
  if dayMonth = "01-04" then some (toString (year - 1998)) else none

/-- Ordinal marker `o` computed by `HTTPError.__init__` from the last digit
of the anniversary count. -/
def HTTPError.ordinal (a : String) : String :=
  if a.endsWith "1" then "st"
  else if a.endsWith "2" then "nd"
  else if a.endsWith "3" then "rd"
  else "th"

/-- Descriptive text `m` selected by the conditional chain in
`HTTPError.__init__` from the status code `c`, the anniversary count `a`,
the `Retry-After` header value `t` and the `Upgrade` header value. `none`
models the `KeyError` that `r.headers["Upgrade"]` raises for a 426 response
without an `Upgrade` header; for 503 the source attaches the
`if t else ''` conditional to the whole concatenated literal, so the text is
empty unless `Retry-After` is present and non-empty (Python truthiness). -/
def HTTPError.statusText (c : Nat) (a : Option String) (t : Option String)
    (upgrade : Option String) : Option String :=
  if c = 400 then
    some "Bad request. The server could not understand the request due to invalid syntax."
  else if c = 401 then
    some "Unauthorized. The client lacked authentication."
  else if c = 403 then
    some "Forbidden. The client authorized to the server but does not have the rights to access this resource."
  else if c = 404 then
    some "Not found. The requested resource could not be found on this server."
  else if c = 405 then
    some "Method not allowed. The request mothod has been disabled by the server. Most likely POST was used wrongly."
  else if c = 406 then
    some "Not acceptable. The content type set in the request headers can not be matched by the server."
  else if c = 407 then
    some "Proxy authentication required. The cllient did not authorize (correctly). Authorization should be done by a proxy."
  else if c = 408 then
    some "Request timeout. The connection to the server has been inactive for too long."
  else if c = 409 then
    some "Conflict. The request conflicted with the current state of the server."
  else if c = 410 then
    some "Gone. The requested resource has been deleted from the server."
  else if c = 411 then
    some "Length required. Header field \"Content-Length\" is missing."
  else if c = 412 then
    some "Precontidion failed. The client has indicated conditions in the headers, which the server does not meet."
  else if c = 413 then
    some "Payload too large. The request payload is too large."
  else if c = 414 then
    some "URI too long. The URI specified is too long for the server to interpret."
  else if c = 415 then
    some "Unsupported media type. The requested media type is not supported by the server."
  else if c = 416 then
    some "The range specified in the \"Range\" header field could not be satisfied."
  else if c = 417 then
    some "Expactation failed. The expectation present in the \"Expect\" header field could not be met."
  else if c = 418 then
    (match a with
     | none => some "I´m a teapot. The server did not wish to fulfill this request."
     | some av =>
       some ("I´m a teapot. Happy 1st of April and " ++ av ++ HTTPError.ordinal av
         ++ " anniversary of the Hyper Text Coffee Pot Control Protocol!"))
  else if c = 421 then
    some "Misdirected request. The request was sent to a server is not able to create a response to your request."
  else if c = 422 then
    some "Unprocessable entity. The request could not be processed due to semantic errors."
  else if c = 423 then
    some "Locked. The resource you are trying to access is locked."
  else if c = 424 then
    some "Failed Dependency. The request failed due to failure of a previous request."
  else if c = 426 then
    (match upgrade with
     | none => none
     | some uv =>
       some ("Upgrade required. The server refuses to perform the request using the current protocol but might be willing to do so after the client upgrades to one of these protocols: " ++ uv))
  else if c = 428 then
    some "Precondition required. The client has to indicate preconditions in the headers."
  else if c = 429 then
    some "Too many requests. The user has sent too many requests in a given amount of time (\"rate limiting\")."
  else if c = 431 then
    some "Request header fields too large. The client has sent toomany headers."
  else if c = 451 then
    some "Unavailable for legal reasons. The requested resource cannot legally be provided, such as a web page censored by a government."
  else if c = 500 then
    some "Internal server error. The server has encountered asituation it doesn´t know how to handle."
  else if c = 501 then
    some "Not implemented. The request method is not supported by the server and cannot be handled."
  else if c = 502 then
    some "Bad gateway. The server working as a gateway got a bad response."
  else if c = 503 then
    (match t with
     | none => some ""
     | some tv =>
       if tv = "" then some ""
       else
         some ("Service unavailable. The server is not currently able to respond due to maintenance, overload, etc. Try again after " ++ tv ++ "."))
  else if c = 504 then
    some "Gateway timeout. The server requested by the gateway did not respond in time."
  else if c = 506 then
    some "Internal configuration error."
  else if c = 507 then
    some "Insufficient storage. The request could not be met because of insufficient storage on the server side."
  else if c = 508 then
    some "Loop detected. The server stopped processing the request since it detected an infinite loop."
  else if c = 510 then
    some "Not extended. The request must be extended for the server to fulfill it."
  else if c = 511 then
    some "Network authentication required. The client need to authenticate to access the network."
  else
    some "Unknown error."

/-- Full message assembled by `HTTPError.__init__(r)`: the optional debug
prefix, the error class by status range, the status code, the descriptive
text and the fixed closing sentence. `none` models the constructor itself
failing with a `KeyError` (426 without an `Upgrade` header). -/
def HTTPError.message (dbg : Bool) (dayMonth : String) (year : Int)
    (r : Response) : Option String :=
  let c := r.status_code
  let a := HTTPError.anniversary dayMonth year
  let t := r.getHeader "Retry-After"
  match HTTPError.statusText c a t (r.getHeader "Upgrade") with
  | none => none
  | some m =>
    let msg := (if dbg then "\"" ++ r.url ++ "\" responded with: " else "")
      ++ (if c < 500 then "Client error," else if c < 600 then "Server error," else "Unknown,")
    some (msg ++ " " ++ toString c ++ ": " ++ m
      ++ " If this issue persists, please open an issue in the GitHub repository.")

/-- Exception produced by evaluating `HTTPError(r)`: the `HTTPError` with
the assembled message, or the `KeyError` its constructor runs into for a
426 response without an `Upgrade` header. -/
def HTTPError.exc (dbg : Bool) (dayMonth : String) (year : Int)
    (r : Response) : PyExc :=
  match HTTPError.message dbg dayMonth year r with
  | some m => .httpError m
  | none => .keyError "Upgrade"

/-- State of a `UserSession` object after a successful `_login`: the session
key and the user id scraped from the final response (the cookie jar lives in
the external `requests.Session` and is not part of the repository's state). -/
structure UserSession where
  sesskey : String
  userid : String
deriving DecidableEq

/-- Every instance attribute assigned anywhere in the `UserSession` class
body: `self._session` (in `_login`), `self.sesskey` and `self.userid` (at
the end of `_login`). In particular `_user` is never assigned, so the
`raise LoginError(self._user)` on the form-error path reads a missing
attribute. -/
def UserSession.assignedAttrs : List String := ["_session", "sesskey", "userid"]

/-- Landing page primed by the first GET of `_login`. -/
def lernplattformUrl : String := "https://lernplattform.mebis.bayern.de"

/-- Identity-provider origin prepended to the first extracted action path. -/
def idpUrl : String := "https://idp.mebis.bayern.de"

/-- Ajax endpoint used by `UserSession.ajax`. -/
def ajaxUrl : String := "https://lernplattform.mebis.bayern.de/lib/ajax/service.php"

/-- Survey endpoint used by `UserSession.make_survey_choice`. -/
def choiceUrl : String := "https://lernplattform.mebis.bayern.de/mod/choice/view.php"

/-- The `_login` method (also the whole constructor body). `unescape` is
`html.unescape` from the Python standard library; `r1`, `r2`, `r3` are the
responses the transport returns for the landing-page GET, the credential
POST and the assertion-consumer POST, in that order. Each
`search(...).group(0)` is embedded as a match on `extractPattern`, with a
missing match faulting like `None.group(0)` does. On the form-error path the
source executes `raise LoginError(self._user)`; evaluating `self._user`
raises `AttributeError` first, because the attribute is never assigned
(`UserSession.assignedAttrs`), so no `LoginError` is ever constructed. -/
def UserSession.login (unescape : String → String) (user pwd : String)
    (r1 r2 r3 : Response) : Except PyExc UserSession :=
  match extractPattern actionMarker r1.text with
  | none => .error .attributeErrorNoneGroup
  | some a1 =>
    let nexturl := idpUrl ++ a1
    if containsSub "form-error".data r2.text.data then
      .error .attributeErrorMissingUserAttr
    else
      match extractPattern actionMarker r2.text with
      | none => .error .attributeErrorNoneGroup
      | some a2 =>
        let nexturl2 := unescape a2
        match extractPattern relayStateMarker r2.text with
        | none => .error .attributeErrorNoneGroup
        | some rsRaw =>
          let rs := unescape rsRaw
          match extractPattern samlResponseMarker r2.text with
          | none => .error .attributeErrorNoneGroup
          | some saml =>
            match extractPattern sesskeyMarker r3.text with
            | none => .error .attributeErrorNoneGroup
            | some sk =>
              match extractPattern useridMarker r3.text with
              | none => .error .attributeErrorNoneGroup
              | some uid => .ok ⟨sk, uid⟩

/-- The `get` wrapper: issue the request on the raw session (the transport's
answer `r` is passed in) and raise `HTTPError(r)` when
`r.status_code >= 400`, else return the raw response. The object state is
returned alongside; the method never assigns to `self`. -/
def UserSession.get (dbg : Bool) (dayMonth : String) (year : Int)
    (self : UserSession) (r : Response) :
    Except PyExc Response × UserSession :=
  (if 400 ≤ r.status_code then .error (HTTPError.exc dbg dayMonth year r)
   else .ok r, self)

/-- The `post` wrapper, with the same body as `get` around the transport's
POST answer. -/
def UserSession.post (dbg : Bool) (dayMonth : String) (year : Int)
    (self : UserSession) (r : Response) :
    Except PyExc Response × UserSession :=
  (if 400 ≤ r.status_code then .error (HTTPError.exc dbg dayMonth year r)
   else .ok r, self)

/-- Parsed JSON value as produced by `Response.json()`. -/
inductive JVal where
  | null
  | bool (b : Bool)
  | num (n : Int)
  | str (s : String)
  | arr (elems : List JVal)
  | obj (fields : List (String × JVal))

/-- Error message hard-coded in `UserSession.ajax`. -/
def ajaxFailMessage : String :=
  "The ajax request failed. Check for spelling errors or take a look at the docs."

/-- The `ajax` method: POST to the ajax endpoint through `self.post` (so the
status check of the wrapper runs first), then `.json()[0]`, then raise
`ActionFailedError` when the element's `error` field `is True`, else return
its `data` field. `parse` is the JSON parser of `Response.json()` (external
library, `none` = decode error); `r` is the transport's answer to the POST.
The method reads `self.sesskey` (sent as a query parameter) and assigns
nothing, so the state comes back unchanged. -/
def UserSession.ajax (dbg : Bool) (dayMonth : String) (year : Int)
    (parse : String → Option JVal) (self : UserSession)
    (method : String) (args : JVal) (r : Response) :
    Except PyExc JVal × UserSession :=
  (match (UserSession.post dbg dayMonth year self r).1 with
   | .error e => .error e
   | .ok resp =>
     match parse resp.text with
     | none => .error .jsonDecodeError
     | some (.arr []) => .error .indexErrorOutOfRange
     | some (.arr (first :: _)) =>
       (match first with
        | .obj fields =>
          (match fields.lookup "error" with
           | none => .error (.keyError "error")
           | some (.bool true) => .error (.actionFailedError ajaxFailMessage)
           | some _ =>
             match fields.lookup "data" with
             | none => .error (.keyError "data")
             | some d => .ok d)
        | _ => .error .typeErrorNotSubscriptable)
     | some _ => .error .typeErrorNotSubscriptable, self)

/-- The `make_survey_choice` method: POST the choice on the raw session
(`self._session.post`, not the wrapper) with redirects disabled, convert a
caught `HTTPError` into `False`, and otherwise answer whether the response
carries a `location` header. `post_result` is the outcome of the raw POST:
the transport's response, or the exception it raised; only the module's own
`HTTPError` is caught, any other exception propagates. The method reads
`self.sesskey` and assigns nothing. -/
def UserSession.make_survey_choice (self : UserSession)
    (survey_id choice_id : String) (post_result : Except PyExc Response) :
    Except PyExc Bool × UserSession :=
  (match post_result with
   | .error (.httpError _) => .ok false
   | .error e => .error e
   | .ok r => .ok ((r.getHeader "location").isSome), self)

/-! Helper lemmas about the extraction primitives and the message table. -/

theorem splitAtChar_append (stop : Char) (v rest : List Char) (hv : stop ∉ v) :
    splitAtChar stop (v ++ stop :: rest) = some v := by
  induction v with
  | nil => simp [splitAtChar]
  | cons c cs ih =>
    have hcs : stop ∉ cs := fun h => hv (List.mem_cons_of_mem _ h)
    have hc : ¬ c = stop := fun h => hv (h ▸ List.mem_cons_self _ _)
    simp [splitAtChar, hc, ih hcs]

theorem isPrefixOf_append_self (l r : List Char) : l.isPrefixOf (l ++ r) = true := by
  induction l with
  | nil => simp [List.isPrefixOf]
  | cons c cs ih => simp [List.isPrefixOf, ih]

theorem dropUntilAfter_append_self (marker rest : List Char) :
    dropUntilAfter marker (marker ++ rest) = some rest := by
  cases marker with
  | nil =>
    cases rest with
    | nil => rfl
    | cons c cs => simp [dropUntilAfter, List.isPrefixOf]
  | cons mc mcs =>
    have hpre := isPrefixOf_append_self (mc :: mcs) rest
    rw [List.cons_append] at hpre ⊢
    simp only [dropUntilAfter, hpre, if_true]
    rw [← List.cons_append, List.drop_left]

theorem extractPattern_embed (marker v : String) (rest : List Char)
    (hv : quoteChar ∉ v.data) :
    extractPattern marker (String.mk (marker.data ++ v.data ++ quoteChar :: rest))
      = some v := by
  unfold extractPattern
  have h1 : (String.mk (marker.data ++ v.data ++ quoteChar :: rest)).data
      = marker.data ++ (v.data ++ quoteChar :: rest) := by
    simp
  rw [h1, dropUntilAfter_append_self]
  simp [splitAtChar_append quoteChar v.data rest hv]

theorem data_append_eq (a b : String) : (a ++ b).data = a.data ++ b.data := rfl

theorem dropUntilAfter_isSome_append (n l r : List Char) :
    (dropUntilAfter n (l ++ n ++ r)).isSome = true := by
  induction l with
  | nil =>
    show (dropUntilAfter n (n ++ r)).isSome = true
    rw [dropUntilAfter_append_self]
    rfl
  | cons c cs ih =>
    show (dropUntilAfter n (c :: (cs ++ n ++ r))).isSome = true
    by_cases hp : n.isPrefixOf (c :: (cs ++ n ++ r)) = true
    · simp only [dropUntilAfter, hp, if_true]
      rfl
    · simp only [dropUntilAfter, hp, if_false]
      exact ih

theorem getHeader_lower_location (r : Response) :
    r.getHeader "Location" = r.getHeader "location" := by
  unfold Response.getHeader
  have h : lowerString "Location" = lowerString "location" := by decide
  rw [h]

theorem statusText_isSome_of (c : Nat) (a t u : Option String)
    (h : ¬ (c = 426 ∧ u = none)) :
    ∃ m, HTTPError.statusText c a t u = some m := by
  by_cases h400 : c = 400
  · subst h400
    exact ⟨_, rfl⟩
  by_cases h401 : c = 401
  · subst h401
    exact ⟨_, rfl⟩
  by_cases h403 : c = 403
  · subst h403
    exact ⟨_, rfl⟩
  by_cases h404 : c = 404
  · subst h404
    exact ⟨_, rfl⟩
  by_cases h405 : c = 405
  · subst h405
    exact ⟨_, rfl⟩
  by_cases h406 : c = 406
  · subst h406
    exact ⟨_, rfl⟩
  by_cases h407 : c = 407
  · subst h407
    exact ⟨_, rfl⟩
  by_cases h408 : c = 408
  · subst h408
    exact ⟨_, rfl⟩
  by_cases h409 : c = 409
  · subst h409
    exact ⟨_, rfl⟩
  by_cases h410 : c = 410
  · subst h410
    exact ⟨_, rfl⟩
  by_cases h411 : c = 411
  · subst h411
    exact ⟨_, rfl⟩
  by_cases h412 : c = 412
  · subst h412
    exact ⟨_, rfl⟩
  by_cases h413 : c = 413
  · subst h413
    exact ⟨_, rfl⟩
  by_cases h414 : c = 414
  · subst h414
    exact ⟨_, rfl⟩
  by_cases h415 : c = 415
  · subst h415
    exact ⟨_, rfl⟩
  by_cases h416 : c = 416
  · subst h416
    exact ⟨_, rfl⟩
  by_cases h417 : c = 417
  · subst h417
    exact ⟨_, rfl⟩
  by_cases h418 : c = 418
  · subst h418
    cases a with
    | none => exact ⟨_, rfl⟩
    | some av => exact ⟨_, rfl⟩
  by_cases h421 : c = 421
  · subst h421
    exact ⟨_, rfl⟩
  by_cases h422 : c = 422
  · subst h422
    exact ⟨_, rfl⟩
  by_cases h423 : c = 423
  · subst h423
    exact ⟨_, rfl⟩
  by_cases h424 : c = 424
  · subst h424
    exact ⟨_, rfl⟩
  by_cases h426 : c = 426
  · subst h426
    cases u with
    | none => exact absurd ⟨rfl, rfl⟩ h
    | some uv => exact ⟨_, rfl⟩
  by_cases h428 : c = 428
  · subst h428
    exact ⟨_, rfl⟩
  by_cases h429 : c = 429
  · subst h429
    exact ⟨_, rfl⟩
  by_cases h431 : c = 431
  · subst h431
    exact ⟨_, rfl⟩
  by_cases h451 : c = 451
  · subst h451
    exact ⟨_, rfl⟩
  by_cases h500 : c = 500
  · subst h500
    exact ⟨_, rfl⟩
  by_cases h501 : c = 501
  · subst h501
    exact ⟨_, rfl⟩
  by_cases h502 : c = 502
  · subst h502
    exact ⟨_, rfl⟩
  by_cases h503 : c = 503
  · subst h503
    cases t with
    | none => exact ⟨_, rfl⟩
    | some tv =>
      by_cases htv : tv = ""
      · subst htv
        exact ⟨_, rfl⟩
      · refine ⟨"Service unavailable. The server is not currently able to respond due to maintenance, overload, etc. Try again after " ++ tv ++ ".", ?_⟩
        show (if tv = "" then some "" else some _) = _
        rw [if_neg htv]
  by_cases h504 : c = 504
  · subst h504
    exact ⟨_, rfl⟩
  by_cases h506 : c = 506
  · subst h506
    exact ⟨_, rfl⟩
  by_cases h507 : c = 507
  · subst h507
    exact ⟨_, rfl⟩
  by_cases h508 : c = 508
  · subst h508
    exact ⟨_, rfl⟩
  by_cases h510 : c = 510
  · subst h510
    exact ⟨_, rfl⟩
  by_cases h511 : c = 511
  · subst h511
    exact ⟨_, rfl⟩
  simp only [HTTPError.statusText, if_neg h400, if_neg h401, if_neg h403, if_neg h404, if_neg h405, if_neg h406, if_neg h407, if_neg h408, if_neg h409, if_neg h410, if_neg h411, if_neg h412, if_neg h413, if_neg h414, if_neg h415, if_neg h416, if_neg h417, if_neg h418, if_neg h421, if_neg h422, if_neg h423, if_neg h424, if_neg h426, if_neg h428, if_neg h429, if_neg h431, if_neg h451, if_neg h500, if_neg h501, if_neg h502, if_neg h503, if_neg h504, if_neg h506, if_neg h507, if_neg h508, if_neg h510, if_neg h511]
  exact ⟨_, rfl⟩


/-! Claim theorems. -/

/-- Claim C6 (confirmed): `make_survey_choice` returns true when the choice
POST's response carries a `Location` header and false otherwise, and it never
raises to the caller: an `HTTPError` arising from the POST is caught locally
and converted to a `false` result instead of propagating. -/
theorem make_survey_choice_contract (self : UserSession) (sid cid : String) :
    (∀ r : Response,
        UserSession.make_survey_choice self sid cid (.ok r)
          = (.ok (r.hasHeader "Location"), self))
    ∧ (∀ m : String,
        UserSession.make_survey_choice self sid cid (.error (.httpError m))
          = (.ok false, self)) := by
  refine ⟨fun r => ?_, fun m => rfl⟩
  show (Except.ok ((r.getHeader "location").isSome), self) = _
  simp only [Response.hasHeader, getHeader_lower_location]

/-- Claim C9 (confirmed): after login, the session key is never mutated by
any subsequent operation — `get`, `post`, `ajax` and `make_survey_choice`
all return the object state (hence the `sesskey` attribute) unchanged. -/
theorem sesskey_never_mutated :
    (∀ (dbg : Bool) (dm : String) (y : Int) (self : UserSession) (r : Response),
        (UserSession.get dbg dm y self r).2.sesskey = self.sesskey
      ∧ (UserSession.post dbg dm y self r).2.sesskey = self.sesskey)
    ∧ (∀ (dbg : Bool) (dm : String) (y : Int) (parse : String → Option JVal)
        (self : UserSession) (method : String) (args : JVal) (r : Response),
        (UserSession.ajax dbg dm y parse self method args r).2.sesskey = self.sesskey)
    ∧ (∀ (self : UserSession) (sid cid : String) (pr : Except PyExc Response),
        (UserSession.make_survey_choice self sid cid pr).2.sesskey = self.sesskey) :=
  ⟨fun _ _ _ _ _ => ⟨rfl, rfl⟩, fun _ _ _ _ _ _ _ _ => rfl, fun _ _ _ _ => rfl⟩

/-- Claim C10 (confirmed): the result of `make_survey_choice` depends only on
the response's headers (the POST goes through the raw session, bypassing the
status check of the wrappers), so a status ≥ 400 response carrying a
`Location` header still yields `true`. -/
theorem choice_ignores_status :
    (∀ (self : UserSession) (sid cid : String) (hs : List (String × String))
        (c c2 : Nat) (t t2 u u2 : String),
        UserSession.make_survey_choice self sid cid (.ok ⟨c, t, hs, u⟩)
          = UserSession.make_survey_choice self sid cid (.ok ⟨c2, t2, hs, u2⟩))
    ∧ (∀ (self : UserSession) (sid cid : String),
        UserSession.make_survey_choice self sid cid
            (.ok ⟨500, "", [("Location", "/next")], ""⟩)
          = (.ok true, self))
    ∧ 400 ≤ (500 : Nat) :=
  ⟨fun _ _ _ _ _ _ _ _ _ _ => rfl, fun _ _ _ => rfl, by norm_num⟩

/-- Claim C2 (code bug): on a credential response containing `form-error`,
the source executes `raise LoginError(self._user)`, but `_user` is never
assigned anywhere in the class, so the constructor dies with an
`AttributeError` instead of the documented `LoginError`. The intended
`LoginError` message would have referenced the username and never the
password, as the last two conjuncts show for the message builder. -/
theorem login_form_error_attribute_fault :
    UserSession.login id "alice" "hunter2"
        ⟨200, "<form action=\"/x\">", [], ""⟩
        ⟨200, "<p class=\"form-error\">wrong</p>", [], ""⟩
        ⟨200, "", [], ""⟩
      = .error PyExc.attributeErrorMissingUserAttr
    ∧ UserSession.assignedAttrs.contains "_user" = false
    ∧ containsSub "alice".data (LoginError.message "alice").data = true
    ∧ containsSub "hunter2".data (LoginError.message "alice").data = false :=
  ⟨rfl, rfl, rfl, rfl⟩

/-- Claim C8 (code bug): full `HTTPError` messages as the source computes
them on 2026-10-12 (not April 1st). For 503 with `Retry-After: 30` the
message does contain the service-unavailable text and the interpolated `30`,
and plain-teapot 418 and unknown-code messages are as claimed; but for 503
without `Retry-After` the descriptive text is dropped entirely (the
`if t else` conditional covers the whole concatenated literal), refuting the
claim's universal statement about status 503. -/
theorem http_error_message_evaluations :
    HTTPError.message false "12-10" 2026 ⟨503, "", [], ""⟩
        = some "Server error, 503:  If this issue persists, please open an issue in the GitHub repository."
    ∧ HTTPError.message false "12-10" 2026 ⟨503, "", [("Retry-After", "30")], ""⟩
        = some "Server error, 503: Service unavailable. The server is not currently able to respond due to maintenance, overload, etc. Try again after 30. If this issue persists, please open an issue in the GitHub repository."
    ∧ HTTPError.message false "12-10" 2026 ⟨418, "", [], ""⟩
        = some "Client error, 418: I´m a teapot. The server did not wish to fulfill this request. If this issue persists, please open an issue in the GitHub repository."
    ∧ HTTPError.message false "12-10" 2026 ⟨599, "", [], ""⟩
        = some "Server error, 599: Unknown error. If this issue persists, please open an issue in the GitHub repository." :=
  ⟨rfl, rfl, rfl, rfl⟩

/-- Claim C3 counterexample: a handshake whose landing-page GET is answered
with status 500 (≥ 400) still constructs the session successfully — no HTTP
error is raised for any of the login exchanges' status codes. -/
theorem login_status_500_counterexample :
    UserSession.login id "u" "p"
        ⟨500, "<form action=\"/a\">", [], ""⟩
        ⟨200, "<form action=\"/b\"><input name=\"RelayState\" value=\"R\"><input name=\"SAMLResponse\" value=\"S\">", [], ""⟩
        ⟨200, "x\"sesskey\":\"K\" data-userid=\"7\"", [], ""⟩
      = .ok ⟨"K", "7"⟩
    ∧ 400 ≤ (500 : Nat) :=
  ⟨rfl, by norm_num⟩

/-- Claim C3 (corrected): the constructor never inspects the status codes of
the login exchanges; its outcome depends only on the response bodies, so
replacing any status codes (in particular by codes ≥ 400) leaves the result
unchanged and raises no HTTP error. -/
theorem login_ignores_status (unescape : String → String) (user pwd : String)
    (r1 r2 r3 s1 s2 s3 : Response)
    (h1 : r1.text = s1.text) (h2 : r2.text = s2.text) (h3 : r3.text = s3.text) :
    UserSession.login unescape user pwd r1 r2 r3
      = UserSession.login unescape user pwd s1 s2 s3 := by
  unfold UserSession.login
  rw [h1, h2, h3]

/-- Witness for C3: concrete handshakes differing only in status codes
(500/404/503 against 200/200/200) produce identical login results. -/
theorem login_ignores_status_witness :
    UserSession.login id "u" "p" ⟨500, "A", [], ""⟩ ⟨404, "B", [], ""⟩ ⟨503, "C", [], ""⟩
      = UserSession.login id "u" "p" ⟨200, "A", [], ""⟩ ⟨200, "B", [], ""⟩ ⟨200, "C", [], ""⟩ :=
  login_ignores_status id "u" "p" _ _ _ _ _ _ rfl rfl rfl

/-- Claim C4 counterexample: a landing page without any `action=\"` pattern
makes the constructor die with the opaque `AttributeError` from calling
`.group(0)` on `None` — there is no explicit unexpected-response error
anywhere in the source. -/
theorem login_missing_pattern_counterexample :
    UserSession.login id "u" "p"
        ⟨200, "<html></html>", [], ""⟩ ⟨200, "", [], ""⟩ ⟨200, "", [], ""⟩
      = .error PyExc.attributeErrorNoneGroup :=
  rfl


/-- Claim C7 (confirmed): round-trip — the extraction returns exactly the
value embedded in a `"sesskey":"<value>"` token (part one), and whenever
construction succeeds the session's `sesskey` attribute is exactly what the
sesskey extraction returned on the final response (part two). -/
theorem login_roundtrip_sesskey :
    (∀ (v : String) (rest : List Char), quoteChar ∉ v.data →
        extractPattern sesskeyMarker
            (String.mk (sesskeyMarker.data ++ v.data ++ quoteChar :: rest))
          = some v)
    ∧ (∀ (unescape : String → String) (user pwd : String) (r1 r2 r3 : Response)
        (s : UserSession) (v : String),
        extractPattern sesskeyMarker r3.text = some v →
        UserSession.login unescape user pwd r1 r2 r3 = .ok s →
        s.sesskey = v) := by
  constructor
  · exact fun v rest hv => extractPattern_embed sesskeyMarker v rest hv
  · intro unescape user pwd r1 r2 r3 s v hv hok
    unfold UserSession.login at hok
    cases hA1 : extractPattern actionMarker r1.text with
    | none => rw [hA1] at hok; exact Except.noConfusion hok
    | some a1 =>
      rw [hA1] at hok
      cases hFE : containsSub "form-error".data r2.text.data with
      | true => rw [hFE] at hok; exact Except.noConfusion hok
      | false =>
        rw [hFE] at hok
        cases hA2 : extractPattern actionMarker r2.text with
        | none => rw [hA2] at hok; exact Except.noConfusion hok
        | some a2 =>
          rw [hA2] at hok
          cases hRS : extractPattern relayStateMarker r2.text with
          | none => rw [hRS] at hok; exact Except.noConfusion hok
          | some rs0 =>
            rw [hRS] at hok
            cases hSA : extractPattern samlResponseMarker r2.text with
            | none => rw [hSA] at hok; exact Except.noConfusion hok
            | some saml =>
              rw [hSA] at hok
              rw [hv] at hok
              cases hUID : extractPattern useridMarker r3.text with
              | none => rw [hUID] at hok; exact Except.noConfusion hok
              | some uid =>
                rw [hUID] at hok
                have h2 : Except.ok (ε := PyExc) (UserSession.mk v uid) = Except.ok s := hok
                injection h2 with h3
                rw [← h3]

/-- Witness for C7: a concrete token yields its embedded value, and a
concrete successful handshake stores exactly that session key. -/
theorem login_roundtrip_sesskey_witness :
    extractPattern sesskeyMarker
        (String.mk (sesskeyMarker.data ++ "KEY9".data ++ quoteChar :: []))
      = some "KEY9"
    ∧ (UserSession.mk "KEY9" "42").sesskey = "KEY9" :=
  ⟨login_roundtrip_sesskey.1 "KEY9" [] (by decide),
   login_roundtrip_sesskey.2 id "u" "p"
     ⟨200, "<form action=\"/a\">", [], ""⟩
     ⟨200, "<form action=\"/b\"><input name=\"RelayState\" value=\"R\"><input name=\"SAMLResponse\" value=\"S\">", [], ""⟩
     ⟨200, "y\"sesskey\":\"KEY9\" data-userid=\"42\"", [], ""⟩
     ⟨"KEY9", "42"⟩ "KEY9" rfl rfl⟩

/-- Claim C4 (corrected): when a required login pattern (first action URL,
second action URL, RelayState field, SAMLResponse field, or sesskey token)
has no match, the constructor does not fail with an explicit
unexpected-response error — it dies with the opaque `AttributeError` from
calling `.group(0)` on the `None` returned by `re.search`. -/
theorem login_missing_pattern_faults :
    (∀ (unescape : String → String) (user pwd : String) (r1 r2 r3 : Response),
        extractPattern actionMarker r1.text = none →
        UserSession.login unescape user pwd r1 r2 r3
          = .error .attributeErrorNoneGroup)
    ∧ (∀ (unescape : String → String) (user pwd a1 : String) (r1 r2 r3 : Response),
        extractPattern actionMarker r1.text = some a1 →
        containsSub "form-error".data r2.text.data = false →
        extractPattern actionMarker r2.text = none →
        UserSession.login unescape user pwd r1 r2 r3
          = .error .attributeErrorNoneGroup)
    ∧ (∀ (unescape : String → String) (user pwd a1 a2 : String) (r1 r2 r3 : Response),
        extractPattern actionMarker r1.text = some a1 →
        containsSub "form-error".data r2.text.data = false →
        extractPattern actionMarker r2.text = some a2 →
        extractPattern relayStateMarker r2.text = none →
        UserSession.login unescape user pwd r1 r2 r3
          = .error .attributeErrorNoneGroup)
    ∧ (∀ (unescape : String → String) (user pwd a1 a2 rs0 : String) (r1 r2 r3 : Response),
        extractPattern actionMarker r1.text = some a1 →
        containsSub "form-error".data r2.text.data = false →
        extractPattern actionMarker r2.text = some a2 →
        extractPattern relayStateMarker r2.text = some rs0 →
        extractPattern samlResponseMarker r2.text = none →
        UserSession.login unescape user pwd r1 r2 r3
          = .error .attributeErrorNoneGroup)
    ∧ (∀ (unescape : String → String) (user pwd a1 a2 rs0 saml : String) (r1 r2 r3 : Response),
        extractPattern actionMarker r1.text = some a1 →
        containsSub "form-error".data r2.text.data = false →
        extractPattern actionMarker r2.text = some a2 →
        extractPattern relayStateMarker r2.text = some rs0 →
        extractPattern samlResponseMarker r2.text = some saml →
        extractPattern sesskeyMarker r3.text = none →
        UserSession.login unescape user pwd r1 r2 r3
          = .error .attributeErrorNoneGroup) := by
  refine ⟨?_, ?_, ?_, ?_, ?_⟩
  · intro unescape user pwd r1 r2 r3 h1
    unfold UserSession.login
    rw [h1]
  · intro unescape user pwd a1 r1 r2 r3 h1 hfe h2
    unfold UserSession.login
    rw [h1, hfe, h2]
    rfl
  · intro unescape user pwd a1 a2 r1 r2 r3 h1 hfe h2 h3
    unfold UserSession.login
    rw [h1, hfe, h2, h3]
    rfl
  · intro unescape user pwd a1 a2 rs0 r1 r2 r3 h1 hfe h2 h3 h4
    unfold UserSession.login
    rw [h1, hfe, h2, h3, h4]
    rfl
  · intro unescape user pwd a1 a2 rs0 saml r1 r2 r3 h1 hfe h2 h3 h4 h5
    unfold UserSession.login
    rw [h1, hfe, h2, h3, h4, h5]
    rfl

/-- Witness for C4: concrete handshakes in which exactly one of the five
patterns is missing, each faulting with the opaque attribute error. -/
theorem login_missing_pattern_faults_witness :
    UserSession.login id "u" "p" ⟨200, "nope", [], ""⟩ ⟨200, "", [], ""⟩ ⟨200, "", [], ""⟩
        = .error PyExc.attributeErrorNoneGroup
    ∧ UserSession.login id "u" "p" ⟨200, "<a action=\"/x\">", [], ""⟩ ⟨200, "blank", [], ""⟩ ⟨200, "", [], ""⟩
        = .error PyExc.attributeErrorNoneGroup
    ∧ UserSession.login id "u" "p" ⟨200, "<a action=\"/x\">", [], ""⟩ ⟨200, "<form action=\"/b\">", [], ""⟩ ⟨200, "", [], ""⟩
        = .error PyExc.attributeErrorNoneGroup
    ∧ UserSession.login id "u" "p" ⟨200, "<a action=\"/x\">", [], ""⟩ ⟨200, "<form action=\"/b\"><input name=\"RelayState\" value=\"R\">", [], ""⟩ ⟨200, "", [], ""⟩
        = .error PyExc.attributeErrorNoneGroup
    ∧ UserSession.login id "u" "p" ⟨200, "<a action=\"/x\">", [], ""⟩ ⟨200, "<form action=\"/b\"><input name=\"RelayState\" value=\"R\"><input name=\"SAMLResponse\" value=\"S\">", [], ""⟩ ⟨200, "nothing here", [], ""⟩
        = .error PyExc.attributeErrorNoneGroup := by
  refine ⟨?_, ?_, ?_, ?_, ?_⟩
  · exact login_missing_pattern_faults.1 id "u" "p" _ _ _ rfl
  · exact login_missing_pattern_faults.2.1 id "u" "p" "/x" _ _ _ rfl rfl rfl
  · exact login_missing_pattern_faults.2.2.1 id "u" "p" "/x" "/b" _ _ _ rfl rfl rfl rfl
  · exact login_missing_pattern_faults.2.2.2.1 id "u" "p" "/x" "/b" "R" _ _ _ rfl rfl rfl rfl rfl
  · exact login_missing_pattern_faults.2.2.2.2 id "u" "p" "/x" "/b" "R" "S" _ _ _ rfl rfl rfl rfl rfl rfl


theorem message_eq_of_statusText (dbg : Bool) (dm : String) (y : Int)
    (r : Response) (m : String)
    (hm : HTTPError.statusText r.status_code (HTTPError.anniversary dm y)
        (r.getHeader "Retry-After") (r.getHeader "Upgrade") = some m) :
    HTTPError.message dbg dm y r
      = some (((if dbg then "\"" ++ r.url ++ "\" responded with: " else "")
            ++ (if r.status_code < 500 then "Client error,"
                else if r.status_code < 600 then "Server error," else "Unknown,"))
          ++ " " ++ toString r.status_code ++ ": " ++ m
          ++ " If this issue persists, please open an issue in the GitHub repository.") := by
  simp only [HTTPError.message, hm]

theorem exc_426_no_upgrade (dbg : Bool) (dm : String) (y : Int) (r : Response)
    (h426 : r.status_code = 426) (hup : r.getHeader "Upgrade" = none) :
    HTTPError.exc dbg dm y r = .keyError "Upgrade" := by
  unfold HTTPError.exc HTTPError.message
  rw [h426, hup]
  rfl

theorem containsSub_code_in_message (cls m : String) (c : Nat) :
    containsSub (toString c).data
      ((cls ++ " " ++ toString c ++ ": " ++ m
        ++ " If this issue persists, please open an issue in the GitHub repository.").data)
      = true := by
  unfold containsSub
  have h : (cls ++ " " ++ toString c ++ ": " ++ m
      ++ " If this issue persists, please open an issue in the GitHub repository.").data
      = (cls.data ++ " ".data) ++ (toString c).data
        ++ (": " ++ m
          ++ " If this issue persists, please open an issue in the GitHub repository.").data := by
    simp only [data_append_eq, List.append_assoc]
  rw [h]
  exact dropUntilAfter_isSome_append _ _ _

/-- Claim C1 (corrected): a wrapped `get`/`post` answered with status ≥ 400
raises an `HTTPError` whose message carries that status code — except for
status 426 with no `Upgrade` header, where building the message itself dies
with a `KeyError`; for every status < 400 the wrapper returns the raw
response object unchanged. -/
theorem wrapper_http_error_contract (dbg : Bool) (dm : String) (y : Int)
    (self : UserSession) (r : Response) :
    (400 ≤ r.status_code →
      ((r.status_code = 426 ∧ r.getHeader "Upgrade" = none) →
          UserSession.get dbg dm y self r = (.error (.keyError "Upgrade"), self)
        ∧ UserSession.post dbg dm y self r = (.error (.keyError "Upgrade"), self))
      ∧ (¬ (r.status_code = 426 ∧ r.getHeader "Upgrade" = none) →
          ∃ msg, UserSession.get dbg dm y self r = (.error (.httpError msg), self)
            ∧ UserSession.post dbg dm y self r = (.error (.httpError msg), self)
            ∧ containsSub (toString r.status_code).data msg.data = true))
    ∧ (r.status_code < 400 →
        UserSession.get dbg dm y self r = (.ok r, self)
        ∧ UserSession.post dbg dm y self r = (.ok r, self)) := by
  constructor
  · intro hge
    constructor
    · rintro ⟨h426, hup⟩
      have hexc := exc_426_no_upgrade dbg dm y r h426 hup
      constructor
      · unfold UserSession.get
        rw [if_pos hge, hexc]
      · unfold UserSession.post
        rw [if_pos hge, hexc]
    · intro hne
      obtain ⟨m, hm⟩ := statusText_isSome_of r.status_code
        (HTTPError.anniversary dm y) (r.getHeader "Retry-After")
        (r.getHeader "Upgrade") hne
      have hmsg := message_eq_of_statusText dbg dm y r m hm
      have hexc : HTTPError.exc dbg dm y r
          = .httpError (((if dbg then "\"" ++ r.url ++ "\" responded with: " else "")
              ++ (if r.status_code < 500 then "Client error,"
                  else if r.status_code < 600 then "Server error," else "Unknown,"))
            ++ " " ++ toString r.status_code ++ ": " ++ m
            ++ " If this issue persists, please open an issue in the GitHub repository.") := by
        unfold HTTPError.exc
        rw [hmsg]
      refine ⟨((if dbg then "\"" ++ r.url ++ "\" responded with: " else "")
              ++ (if r.status_code < 500 then "Client error,"
                  else if r.status_code < 600 then "Server error," else "Unknown,"))
            ++ " " ++ toString r.status_code ++ ": " ++ m
            ++ " If this issue persists, please open an issue in the GitHub repository.",
          ?_, ?_, ?_⟩
      · unfold UserSession.get
        rw [if_pos hge, hexc]
      · unfold UserSession.post
        rw [if_pos hge, hexc]
      · exact containsSub_code_in_message _ _ _
  · intro hlt
    have hnot : ¬ 400 ≤ r.status_code := by omega
    constructor
    · unfold UserSession.get
      rw [if_neg hnot]
    · unfold UserSession.post
      rw [if_neg hnot]

/-- Claim C1 counterexample: a wrapped call answered with status 426 and no
`Upgrade` header raises a `KeyError`, which is not an `HTTPError`, refuting
the claim's universal statement for status codes ≥ 400. -/
theorem wrapper_keyerror_counterexample :
    (UserSession.get false "12-10" 2026 ⟨"sk", "1"⟩ ⟨426, "", [], "u"⟩).1
        = Except.error (PyExc.keyError "Upgrade")
    ∧ PyExc.isHTTPError (PyExc.keyError "Upgrade") = false
    ∧ 400 ≤ (426 : Nat) :=
  ⟨rfl, rfl, by norm_num⟩

/-- Witness for C1: the contract applied at a 426 response without an
`Upgrade` header, at a 404 response, and at a 200 response. -/
theorem wrapper_http_error_contract_witness :
    UserSession.get false "12-10" 2026 ⟨"sk", "1"⟩ ⟨426, "", [], "u"⟩
        = (.error (.keyError "Upgrade"), ⟨"sk", "1"⟩)
    ∧ (∃ msg, UserSession.get false "12-10" 2026 ⟨"sk", "1"⟩ ⟨404, "", [], "u"⟩
          = (.error (.httpError msg), ⟨"sk", "1"⟩)
        ∧ UserSession.post false "12-10" 2026 ⟨"sk", "1"⟩ ⟨404, "", [], "u"⟩
          = (.error (.httpError msg), ⟨"sk", "1"⟩)
        ∧ containsSub (toString (Response.mk 404 "" [] "u").status_code).data msg.data = true)
    ∧ UserSession.get false "12-10" 2026 ⟨"sk", "1"⟩ ⟨200, "", [], "u"⟩
        = (.ok ⟨200, "", [], "u"⟩, ⟨"sk", "1"⟩) := by
  refine ⟨?_, ?_, ?_⟩
  · exact (((wrapper_http_error_contract false "12-10" 2026 ⟨"sk", "1"⟩
      ⟨426, "", [], "u"⟩).1 (by norm_num)).1 ⟨rfl, rfl⟩).1
  · exact ((wrapper_http_error_contract false "12-10" 2026 ⟨"sk", "1"⟩
      ⟨404, "", [], "u"⟩).1 (by norm_num)).2 (by decide)
  · exact ((wrapper_http_error_contract false "12-10" 2026 ⟨"sk", "1"⟩
      ⟨200, "", [], "u"⟩).2 (by norm_num)).1


/-- Claim C5 (corrected): `ajax` checks transport failures before JSON
parsing — for status ≥ 400 the result is the post wrapper's error whatever
the parser does (an `HTTPError`, except for status 426 without an `Upgrade`
header, where it is a `KeyError`); on HTTP success, a first element whose
`error` field is `true` raises the action-failed error, and otherwise the
element's `data` field is returned when it is present. -/
theorem ajax_contract :
    (∀ (dbg : Bool) (dm : String) (y : Int) (parse : String → Option JVal)
        (self : UserSession) (method : String) (args : JVal) (r : Response),
        400 ≤ r.status_code →
        UserSession.ajax dbg dm y parse self method args r
          = (.error (HTTPError.exc dbg dm y r), self))
    ∧ (∀ (dbg : Bool) (dm : String) (y : Int) (parse : String → Option JVal)
        (self : UserSession) (method : String) (args : JVal) (r : Response)
        (fields : List (String × JVal)) (tail : List JVal),
        r.status_code < 400 →
        parse r.text = some (.arr (.obj fields :: tail)) →
        fields.lookup "error" = some (.bool true) →
        UserSession.ajax dbg dm y parse self method args r
          = (.error (.actionFailedError ajaxFailMessage), self))
    ∧ (∀ (dbg : Bool) (dm : String) (y : Int) (parse : String → Option JVal)
        (self : UserSession) (method : String) (args : JVal) (r : Response)
        (fields : List (String × JVal)) (tail : List JVal) (ev d : JVal),
        r.status_code < 400 →
        parse r.text = some (.arr (.obj fields :: tail)) →
        fields.lookup "error" = some ev →
        ev ≠ .bool true →
        fields.lookup "data" = some d →
        UserSession.ajax dbg dm y parse self method args r = (.ok d, self)) := by
  refine ⟨?_, ?_, ?_⟩
  · intro dbg dm y parse self method args r h
    have hpost : (UserSession.post dbg dm y self r).1
        = .error (HTTPError.exc dbg dm y r) := by
      unfold UserSession.post
      rw [if_pos h]
    simp only [UserSession.ajax, hpost]
  · intro dbg dm y parse self method args r fields tail h hparse herr
    have hpost : (UserSession.post dbg dm y self r).1 = .ok r := by
      unfold UserSession.post
      rw [if_neg (by omega)]
    simp only [UserSession.ajax, hpost, hparse, herr]
  · intro dbg dm y parse self method args r fields tail ev d h hparse herr hne hdata
    have hpost : (UserSession.post dbg dm y self r).1 = .ok r := by
      unfold UserSession.post
      rw [if_neg (by omega)]
    simp only [UserSession.ajax, hpost, hparse, herr]
    cases ev with
    | bool b =>
      cases b with
      | false => simp only [hdata]
      | true => exact absurd rfl hne
    | null => simp only [hdata]
    | num n => simp only [hdata]
    | str s2 => simp only [hdata]
    | arr l => simp only [hdata]
    | obj l => simp only [hdata]

/-- Claim C5 counterexample: an ajax call answered with a 426 response
lacking an `Upgrade` header raises a `KeyError`, not an `HTTPError`; and on
HTTP success with first element having `error` field `false` but no `data`
field, the call raises a `KeyError` instead of returning a value — refuting
the claim as universally stated. -/
theorem ajax_keyerror_counterexample :
    (UserSession.ajax false "12-10" 2026 (fun _ => some (JVal.arr []))
        ⟨"sk", "1"⟩ "x" (JVal.obj []) ⟨426, "", [], ""⟩).1
        = .error (PyExc.keyError "Upgrade")
    ∧ PyExc.isHTTPError (PyExc.keyError "Upgrade") = false
    ∧ (UserSession.ajax false "12-10" 2026
          (fun _ => some (JVal.arr [JVal.obj [("error", JVal.bool false)]]))
          ⟨"sk", "1"⟩ "x" (JVal.obj []) ⟨200, "", [], ""⟩).1
        = .error (PyExc.keyError "data") :=
  ⟨rfl, rfl, rfl⟩

/-- Witness for C5: the contract applied to a 404 transport failure, to a
response whose first element reports `error: true`, and to the claim's own
example `[{"error": false, "data": {"a": 1}}]`, which returns `{"a": 1}`. -/
theorem ajax_contract_witness :
    UserSession.ajax false "12-10" 2026 (fun _ => some JVal.null)
        ⟨"sk", "1"⟩ "x" JVal.null ⟨404, "", [], ""⟩
      = (.error (HTTPError.exc false "12-10" 2026 ⟨404, "", [], ""⟩), ⟨"sk", "1"⟩)
    ∧ UserSession.ajax false "12-10" 2026
        (fun _ => some (JVal.arr [JVal.obj [("error", JVal.bool true)]]))
        ⟨"sk", "1"⟩ "x" JVal.null ⟨200, "", [], ""⟩
      = (.error (.actionFailedError ajaxFailMessage), ⟨"sk", "1"⟩)
    ∧ UserSession.ajax false "12-10" 2026
        (fun _ => some (JVal.arr [JVal.obj
          [("error", JVal.bool false), ("data", JVal.obj [("a", JVal.num 1)])]]))
        ⟨"sk", "1"⟩ "x" JVal.null ⟨200, "", [], ""⟩
      = (.ok (JVal.obj [("a", JVal.num 1)]), ⟨"sk", "1"⟩) := by
  refine ⟨?_, ?_, ?_⟩
  · exact ajax_contract.1 false "12-10" 2026 _ _ "x" JVal.null _ (by norm_num)
  · exact ajax_contract.2.1 false "12-10" 2026 _ _ "x" JVal.null _ _ []
      (by norm_num) rfl rfl
  · exact ajax_contract.2.2 false "12-10" 2026 _ _ "x" JVal.null _ _ []
      (JVal.bool false) _ (by norm_num) rfl rfl (by simp) rfl

end Mebispy
